import Mathlib

/-!
Shallow embedding of the buffer-ownership and transform core of a Rust
safe wrapper around the TurboJPEG native codec (files `src/buf.rs`,
`src/handle.rs`, `src/transform.rs`).

Native (FFI) behaviour is not part of the wrapper: every native entry
point (`tj3Alloc`, `tj3Init`, `tj3Set`, `tj3Transform`, `tj3GetErrorStr`)
is modelled as an oracle parameter describing what the native layer
returned on this particular call.  Raw pointers are modelled as `Nat`
addresses with `0` standing for the null pointer, and process memory as a
partial map from addresses to bytes, so that a faulting dereference is
observable as `none`.
-/

namespace Turbojpeg

/-- Modelled from the spec: the structured error type of the wrapper
(declared in `src/common.rs`, which is not part of the sources; its
constructors are fixed by the error taxonomy of the spec and by their
uses in `src/transform.rs` and `src/handle.rs`):
`TurboJpegError` carries the native library's diagnostic string
(the spec's `CodecError(text)`), `Null` is the spec's `NullResult`,
and `IntegerOverflow` names the offending geometry field. -/
inductive Error where
  | turboJpegError (msg : String)
  | null
  | integerOverflow (field : String)
  deriving DecidableEq, Repr

/-- Process memory: a partial map from addresses to bytes.  Reading an
unmapped address is a fault (`none`); the null address `0` is never
mapped in any well-formed memory, but the development never needs to
assume that. -/
def Mem : Type := Nat → Option Nat

/-- Read `n` bytes starting at address `p` (the semantics of
`slice::from_raw_parts(p, n)` being materialised and read).  Faults
(returns `none`) as soon as one byte is unmapped; reads nothing when
`n = 0`. -/
def readBytes (mem : Mem) : Nat → Nat → Option (List Nat)
  | _, 0 => some []
  | p, n + 1 =>
    match mem p, readBytes mem (p + 1) n with
    | some b, some rest => some (b :: rest)
    | _, _ => none

/-- Write the bytes `data` into memory starting at address `p`
(the semantics of `ptr::copy_nonoverlapping` into `p`). -/
def writeBytes : Mem → Nat → List Nat → Mem
  | mem, _, [] => mem
  | mem, p, b :: rest => writeBytes (fun a => if a = p then some b else mem a) (p + 1) rest

/-- Embeds `unsafe fn deref(ptr, len)` of `src/buf.rs`: when `len ≠ 0`
materialise and read the slice `from_raw_parts(ptr, len)`; when
`len = 0` return the empty slice without touching memory. -/
def derefBytes (mem : Mem) (ptr len : Nat) : Option (List Nat) :=
  if len ≠ 0 then readBytes mem ptr len else some []

/-- Embeds `unsafe fn deref_mut(ptr, len)` of `src/buf.rs`; in the pure
model the mutable view reads the same bytes as the shared one. -/
def derefMutBytes (mem : Mem) (ptr len : Nat) : Option (List Nat) :=
  if len ≠ 0 then readBytes mem ptr len else some []

/-- Embeds `struct OwnedBuf` of `src/buf.rs`: a raw address (0 = null)
and a length, the backing memory owned by the native allocator. -/
structure OwnedBuf where
  ptr : Nat
  len : Nat
  deriving DecidableEq, Repr

/-- Embeds `OwnedBuf::new()`: the empty buffer with a null address. -/
def OwnedBuf.new : OwnedBuf :=
  { ptr := 0, len := 0 }

/-- Embeds `OwnedBuf::allocate(len)`.  The oracle `alloc` is the native
allocator `tj3Alloc`, returning the address it produced (0 = null).
The Rust source asserts `!ptr.is_null()` — a process-level panic, not a
recoverable error — which the embedding renders as `none`; on a non-null
address the buffer records that address and the requested length. -/
def OwnedBuf.allocate (alloc : Nat → Nat) (len : Nat) : Option OwnedBuf :=
  let p := alloc len
  if p = 0 then none
  else some { ptr := p, len := len }

/-- Embeds `OwnedBuf::copy_from_slice(data)`: allocate `data.length`
bytes via the native allocator and copy `data` into the fresh region;
returns the new buffer together with the updated memory, or `none` when
the allocation assertion fires. -/
def OwnedBuf.copy_from_slice (alloc : Nat → Nat) (mem : Mem) (data : List Nat) :
    Option (OwnedBuf × Mem) :=
  match OwnedBuf.allocate alloc data.length with
  | none => none
  | some buf => some (buf, writeBytes mem buf.ptr data)

/-- Embeds the byte view `&*owned_buf` (the `Deref` impl of `OwnedBuf`). -/
def OwnedBuf.view (mem : Mem) (b : OwnedBuf) : Option (List Nat) :=
  derefBytes mem b.ptr b.len

/-- Embeds the mutable byte view of `OwnedBuf` (its `DerefMut` impl). -/
def OwnedBuf.viewMut (mem : Mem) (b : OwnedBuf) : Option (List Nat) :=
  derefMutBytes mem b.ptr b.len

/-- Addresses released by one `tj3Free(p)` call: freeing the null
pointer is a documented no-op, so it releases nothing. -/
def freedBy (ptr : Nat) : List Nat :=
  if ptr = 0 then [] else [ptr]

/-- Embeds `impl Drop for OwnedBuf`: the destructor always calls
`tj3Free(self.ptr)`; the addresses it actually releases. -/
def OwnedBuf.dropReleases (b : OwnedBuf) : List Nat :=
  freedBy b.ptr

/-- Embeds `struct OutputBuf` of `src/buf.rs`: raw address, length and
the ownership tag (`is_owned = true` for the native-owned growable
variant, `false` for the caller-borrowed fixed variant).  The
`PhantomData` lifetime marker has no runtime content and is omitted. -/
structure OutputBuf where
  ptr : Nat
  len : Nat
  is_owned : Bool
  deriving DecidableEq, Repr

/-- Embeds `OutputBuf::borrowed(slice)`: wraps the caller slice's
address and length; not owned. -/
def OutputBuf.borrowed (ptr len : Nat) : OutputBuf :=
  { ptr := ptr, len := len, is_owned := false }

/-- Embeds `OutputBuf::owned(buf)`: moves the `OwnedBuf`'s fields into
an owned `OutputBuf` and nulls the source's pointer so that the source's
destructor does not free the allocation a second time.  The second
component is the residual state the consumed `OwnedBuf` is left in when
its destructor runs. -/
def OutputBuf.owned (buf : OwnedBuf) : OutputBuf × OwnedBuf :=
  ({ ptr := buf.ptr, len := buf.len, is_owned := true }, { buf with ptr := 0 })

/-- Embeds `OutputBuf::new_owned()`. -/
def OutputBuf.new_owned : OutputBuf :=
  (OutputBuf.owned OwnedBuf.new).1

/-- Embeds `OutputBuf::into_owned()`.  The source nulls `self.ptr`
first (so `self`'s destructor frees nothing), then either moves the
fields out directly (owned case, no copy, memory untouched) or reads the
borrowed bytes and copies them into a freshly allocated native buffer.
Returns the produced `OwnedBuf`, the residual state of the consumed
`OutputBuf`, and the resulting memory; `none` models a fault or the
allocation assertion firing. -/
def OutputBuf.into_owned (alloc : Nat → Nat) (mem : Mem) (b : OutputBuf) :
    Option (OwnedBuf × OutputBuf × Mem) :=
  let residual : OutputBuf := { b with ptr := 0 }
  if b.is_owned then
    some ({ ptr := b.ptr, len := b.len }, residual, mem)
  else
    match readBytes mem b.ptr b.len with
    | none => none
    | some data =>
      match OwnedBuf.copy_from_slice alloc mem data with
      | none => none
      | some (buf, memNew) => some (buf, residual, memNew)

/-- Embeds the byte view of `OutputBuf` (its `Deref` impl). -/
def OutputBuf.view (mem : Mem) (b : OutputBuf) : Option (List Nat) :=
  derefBytes mem b.ptr b.len

/-- Embeds the mutable byte view of `OutputBuf` (its `DerefMut` impl). -/
def OutputBuf.viewMut (mem : Mem) (b : OutputBuf) : Option (List Nat) :=
  derefMutBytes mem b.ptr b.len

/-- Embeds `impl Drop for OutputBuf`: the destructor calls
`tj3Free(self.ptr)` only when the buffer is owned; the addresses it
actually releases. -/
def OutputBuf.dropReleases (b : OutputBuf) : List Nat :=
  if b.is_owned then freedBy b.ptr else []

/-- Embeds `struct Handle` of `src/handle.rs`: the opaque native
context token (an address, 0 = null). -/
structure Handle where
  ptr : Nat
  deriving DecidableEq, Repr

/-- Embeds `Handle::get_error()`: wraps the native library's current
error string for this context (`tj3GetErrorStr(self.ptr)`, modelled by
the oracle `errStr`) into a structured error. -/
def Handle.get_error (errStr : Nat → String) (h : Handle) : Error :=
  .turboJpegError (errStr h.ptr)

/-- Embeds `Handle::new(init)` of `src/handle.rs`.  The oracle
`tj3Init` is the native initializer (result address, 0 = null) and
`errStr` the native error-string table.  On a null context the error
string is fetched through the partially constructed wrapper — i.e. from
the null context itself. -/
def Handle.new (tj3Init : Nat → Nat) (errStr : Nat → String) (mode : Nat) :
    Except Error Handle :=
  let this : Handle := { ptr := tj3Init mode }
  if this.ptr = 0 then .error (this.get_error errStr)
  else .ok this

/-- Option bit `TJXOPT_PERFECT` of the native header. -/
def TJXOPT_PERFECT : Nat := 1

/-- Option bit `TJXOPT_TRIM` of the native header. -/
def TJXOPT_TRIM : Nat := 2

/-- Option bit `TJXOPT_CROP` of the native header. -/
def TJXOPT_CROP : Nat := 4

/-- Option bit `TJXOPT_GRAY` of the native header. -/
def TJXOPT_GRAY : Nat := 8

/-- Option bit `TJXOPT_PROGRESSIVE` of the native header. -/
def TJXOPT_PROGRESSIVE : Nat := 32

/-- Option bit `TJXOPT_COPYNONE` of the native header. -/
def TJXOPT_COPYNONE : Nat := 64

/-- Option bit `TJXOPT_OPTIMIZE` of the native header. -/
def TJXOPT_OPTIMIZE : Nat := 256

/-- Parameter id `TJPARAM_NOREALLOC` of the native header; the
development only ever uses it symbolically. -/
def TJPARAM_NOREALLOC : Nat := 12

/-- Largest value of the native `c_int` (32-bit signed); a `usize`
crop field fits the native integer width exactly when it is at most
this bound (`usize::try_into::<c_int>`). -/
def C_INT_MAX : Nat := 2147483647

/-- Embeds `enum TransformOp` of `src/transform.rs`. -/
inductive TransformOp where
  | none
  | hflip
  | vflip
  | transpose
  | transverse
  | rot90
  | rot180
  | rot270
  deriving DecidableEq, Repr

/-- Embeds the `repr(u32)` discriminants of `TransformOp` (the native
`TJXOP` codes), used by `transform.op as libc::c_int`. -/
def TransformOp.code : TransformOp → Int
  | .none => 0
  | .hflip => 1
  | .vflip => 2
  | .transpose => 3
  | .transverse => 4
  | .rot90 => 5
  | .rot180 => 6
  | .rot270 => 7

/-- Embeds `struct TransformCrop` of `src/transform.rs`; the `usize`
fields are modelled as `Nat`. -/
structure TransformCrop where
  x : Nat
  y : Nat
  width : Option Nat
  height : Option Nat
  deriving DecidableEq, Repr

/-- Embeds `struct Transform` of `src/transform.rs`. -/
structure Transform where
  op : TransformOp
  crop : Option TransformCrop
  perfect : Bool
  trim : Bool
  gray : Bool
  progressive : Bool
  optimize : Bool
  copy_none : Bool
  deriving DecidableEq, Repr

/-- Embeds `Transform::default()`: identity op, no crop, all flags off. -/
def Transform.default : Transform :=
  { op := .none, crop := Option.none, perfect := false, trim := false,
    gray := false, progressive := false, optimize := false, copy_none := false }

/-- Embeds the `struct tjregion` native record filled by
`Transformer::transform` (fields are native `c_int`). -/
structure Region where
  x : Int
  y : Int
  w : Int
  h : Int
  deriving DecidableEq, Repr

/-- Embeds the `struct tjtransform` native descriptor assembled by
`Transformer::transform` (the `data`/`customFilter` fields are always
null/none and are omitted). -/
structure TjTransform where
  r : Region
  op : Int
  options : Nat
  deriving DecidableEq, Repr

/-- Embeds `crop.x.try_into().map_err(|_| Error::IntegerOverflow(field))`:
converts a `usize` value to a native `c_int`, failing with
`IntegerOverflow` naming `field` when the value does not fit. -/
def tryIntoCInt (v : Nat) (field : String) : Except Error Int :=
  if v ≤ C_INT_MAX then .ok (Int.ofNat v) else .error (.integerOverflow field)

/-- Embeds the options-bitmask accumulation at the top of
`Transformer::transform` (lines 264–282 plus the `TJXOPT_CROP` bit set
inside the crop block). -/
def Transform.optionsMask (t : Transform) (cropEnabled : Bool) : Nat :=
  let options := 0
  let options := if t.perfect then options ||| TJXOPT_PERFECT else options
  let options := if t.trim then options ||| TJXOPT_TRIM else options
  let options := if t.gray then options ||| TJXOPT_GRAY else options
  let options := if t.progressive then options ||| TJXOPT_PROGRESSIVE else options
  let options := if t.optimize then options ||| TJXOPT_OPTIMIZE else options
  let options := if t.copy_none then options ||| TJXOPT_COPYNONE else options
  if cropEnabled then options ||| TJXOPT_CROP else options

/-- Embeds the `if let Some(crop) = transform.crop` block of
`Transformer::transform` (lines 284–310): starting from the all-zero
region, convert `x`, then `y`, then the optional `width`, then the
optional `height`, failing with `IntegerOverflow` at the first field
that does not fit the native integer; reports whether the crop bit is
to be set. -/
def cropRegion : Option TransformCrop → Except Error (Region × Bool)
  | Option.none => .ok ({ x := 0, y := 0, w := 0, h := 0 }, false)
  | Option.some crop =>
    match tryIntoCInt crop.x "crop.x" with
    | .error e => .error e
    | .ok rx =>
      match tryIntoCInt crop.y "crop.y" with
      | .error e => .error e
      | .ok ry =>
        match (match crop.width with
               | Option.some w => tryIntoCInt w "crop.width"
               | Option.none => .ok 0) with
        | .error e => .error e
        | .ok rw =>
          match (match crop.height with
                 | Option.some h => tryIntoCInt h "crop.height"
                 | Option.none => .ok 0) with
          | .error e => .error e
          | .ok rh => .ok ({ x := rx, y := ry, w := rw, h := rh }, true)

/-- Observable native interactions performed by one
`Transformer::transform` call, in order: a `tj3Set` of a parameter, or
the `tj3Transform` entry point itself, invoked with the input length
and the assembled transform descriptor. -/
inductive Event where
  | setParam (param : Nat) (value : Int)
  | nativeTransform (jpegLen : Nat) (desc : TjTransform)
  deriving DecidableEq, Repr

/-- Oracle describing what the native layer did during one
`Transformer::transform` call: the status `tj3Set` returned for the
no-realloc parameter, the handle's error string right after that call,
the status `tj3Transform` returned, the output address and length it
left behind (address 0 = null), and the handle's error string right
after it. -/
structure NativeEnv where
  setStatus : Int
  errAfterSet : String
  transformStatus : Int
  transformOutPtr : Nat
  transformOutLen : Nat
  errAfterTransform : String
  deriving DecidableEq, Repr

/-- Embeds `Transformer::transform(&mut self, transform, jpeg_data, output)`
of `src/transform.rs` (lines 258–345).  Returns the call's result, the
final state of `output`, and the ordered list of native interactions.
Control flow follows the source: build the options mask and region
(early-returning `IntegerOverflow` before any native call), set the
`TJPARAM_NOREALLOC` parameter to 1 for a borrowed output and 0 for an
owned one (early-returning the handle's error if the set fails), invoke
`tj3Transform`, unconditionally copy the reported address/length back
into `output`, then classify: nonzero status → the handle's error
string; null address → `Null` with the length forced to zero; otherwise
success. -/
def Transformer.transform (env : NativeEnv) (t : Transform) (jpegData : List Nat)
    (output : OutputBuf) : Except Error Unit × OutputBuf × List Event :=
  match cropRegion t.crop with
  | .error e => (.error e, output, [])
  | .ok (region, cropEnabled) =>
    let desc : TjTransform :=
      { r := region, op := t.op.code, options := t.optionsMask cropEnabled }
    let noRealloc : Int := if output.is_owned then 0 else 1
    let ev0 : List Event := [.setParam TJPARAM_NOREALLOC noRealloc]
    if env.setStatus ≠ 0 then
      (.error (.turboJpegError env.errAfterSet), output, ev0)
    else
      let evs := ev0 ++ [.nativeTransform jpegData.length desc]
      let out1 : OutputBuf :=
        { output with ptr := env.transformOutPtr, len := env.transformOutLen }
      if env.transformStatus ≠ 0 then
        (.error (.turboJpegError env.errAfterTransform), out1, evs)
      else if env.transformOutPtr = 0 then
        (.error .null, { out1 with len := 0 }, evs)
      else
        (.ok (), out1, evs)

/-- Does the optional crop width overflow the native integer width? -/
def cropOverflowWidth (c : TransformCrop) : Bool :=
  match c.width with
  | Option.some w => decide (C_INT_MAX < w)
  | Option.none => false

/-- Does the optional crop height overflow the native integer width? -/
def cropOverflowHeight (c : TransformCrop) : Bool :=
  match c.height with
  | Option.some h => decide (C_INT_MAX < h)
  | Option.none => false

/-- Name of the first crop field, in the source's fixed order `x`, `y`,
`width`, `height`, whose value does not fit the native integer width;
`none` when every present field fits. -/
def firstOverflowField (c : TransformCrop) : Option String :=
  if C_INT_MAX < c.x then Option.some "crop.x"
  else if C_INT_MAX < c.y then Option.some "crop.y"
  else if cropOverflowWidth c then Option.some "crop.width"
  else if cropOverflowHeight c then Option.some "crop.height"
  else Option.none

/-- Whether the crop field named `g` is present and overflows the
native integer width. -/
def cropFieldOverflows (c : TransformCrop) (g : String) : Bool :=
  if g = "crop.x" then decide (C_INT_MAX < c.x)
  else if g = "crop.y" then decide (C_INT_MAX < c.y)
  else if g = "crop.width" then cropOverflowWidth c
  else if g = "crop.height" then cropOverflowHeight c
  else false

/-- Position of a crop field name in the source's conversion order. -/
def fieldIdx (g : String) : Nat :=
  if g = "crop.x" then 0
  else if g = "crop.y" then 1
  else if g = "crop.width" then 2
  else if g = "crop.height" then 3
  else 4

/-- Region produced by a crop whose every present field fits. -/
def cropToRegion (c : TransformCrop) : Region :=
  { x := Int.ofNat c.x,
    y := Int.ofNat c.y,
    w := match c.width with
         | Option.some w => Int.ofNat w
         | Option.none => 0,
    h := match c.height with
         | Option.some h => Int.ofNat h
         | Option.none => 0 }

theorem readBytes_length (mem : Mem) :
    ∀ (n p : Nat) (l : List Nat), readBytes mem p n = Option.some l → l.length = n := by
  intro n
  induction n with
  | zero =>
    intro p l h
    simp only [readBytes] at h
    cases h
    rfl
  | succ k ih =>
    intro p l h
    simp only [readBytes] at h
    cases hb : mem p with
    | none => rw [hb] at h; cases h
    | some b =>
      rw [hb] at h
      cases hr : readBytes mem (p + 1) k with
      | none => rw [hr] at h; cases h
      | some rest =>
        rw [hr] at h
        cases h
        simp [ih (p + 1) rest hr]

theorem writeBytes_lt :
    ∀ (d : List Nat) (mem : Mem) (p a : Nat), a < p → writeBytes mem p d a = mem a := by
  intro d
  induction d with
  | nil => intro mem p a _; rfl
  | cons b rest ih =>
    intro mem p a h
    simp only [writeBytes]
    rw [ih _ (p + 1) a (Nat.lt_succ_of_lt h)]
    simp [Nat.ne_of_lt h]

theorem readBytes_writeBytes :
    ∀ (d : List Nat) (mem : Mem) (p : Nat),
      readBytes (writeBytes mem p d) p d.length = Option.some d := by
  intro d
  induction d with
  | nil => intro mem p; rfl
  | cons b rest ih =>
    intro mem p
    simp only [writeBytes, List.length_cons, readBytes]
    rw [writeBytes_lt rest _ (p + 1) p (Nat.lt_succ_self p)]
    rw [ih _ (p + 1)]
    simp

theorem cropRegion_some_char (c : TransformCrop) :
    cropRegion (Option.some c) =
      match firstOverflowField c with
      | Option.some f => .error (.integerOverflow f)
      | Option.none => .ok (cropToRegion c, true) := by
  rcases c with ⟨x, y, w, h⟩
  unfold cropRegion firstOverflowField tryIntoCInt cropOverflowWidth cropOverflowHeight
    cropToRegion
  by_cases hx : C_INT_MAX < x
  · simp [hx, Nat.not_le.mpr hx]
  · have hx' : x ≤ C_INT_MAX := Nat.not_lt.mp hx
    by_cases hy : C_INT_MAX < y
    · simp [hx, hx', hy, Nat.not_le.mpr hy]
    · have hy' : y ≤ C_INT_MAX := Nat.not_lt.mp hy
      cases w with
      | none =>
        cases h with
        | none => simp [hx, hx', hy, hy']
        | some hv =>
          by_cases hh : C_INT_MAX < hv
          · simp [hx, hx', hy, hy', hh, Nat.not_le.mpr hh]
          · simp [hx, hx', hy, hy', hh, Nat.not_lt.mp hh]
      | some wv =>
        by_cases hw : C_INT_MAX < wv
        · simp [hx, hx', hy, hy', hw, Nat.not_le.mpr hw]
        · have hw' : wv ≤ C_INT_MAX := Nat.not_lt.mp hw
          cases h with
          | none => simp [hx, hx', hy, hy', hw, hw']
          | some hv =>
            by_cases hh : C_INT_MAX < hv
            · simp [hx, hx', hy, hy', hw, hw', hh, Nat.not_le.mpr hh]
            · simp [hx, hx', hy, hy', hw, hw', hh, Nat.not_lt.mp hh]

theorem firstOverflowField_earliest (c : TransformCrop) (f : String)
    (hf : firstOverflowField c = Option.some f) :
    cropFieldOverflows c f = true ∧
    ∀ g, cropFieldOverflows c g = true → fieldIdx f ≤ fieldIdx g := by
  unfold firstOverflowField at hf
  by_cases hx : C_INT_MAX < c.x
  · rw [if_pos hx] at hf
    cases hf
    refine ⟨by simp [cropFieldOverflows, hx], ?_⟩
    intro g _
    have h0 : fieldIdx "crop.x" = 0 := by rfl
    rw [h0]
    exact Nat.zero_le _
  · rw [if_neg hx] at hf
    by_cases hy : C_INT_MAX < c.y
    · rw [if_pos hy] at hf
      cases hf
      refine ⟨by simp [cropFieldOverflows, hy], ?_⟩
      intro g hg
      unfold cropFieldOverflows at hg
      split_ifs at hg with h1 h2 h3 h4
      · simp at hg; exact absurd hg hx
      · rw [h2]
      · rw [h3]; decide
      · rw [h4]; decide
    · rw [if_neg hy] at hf
      by_cases hw : cropOverflowWidth c = true
      · rw [if_pos hw] at hf
        cases hf
        refine ⟨by simp [cropFieldOverflows, hw], ?_⟩
        intro g hg
        unfold cropFieldOverflows at hg
        split_ifs at hg with h1 h2 h3 h4
        · simp at hg; exact absurd hg hx
        · simp at hg; exact absurd hg hy
        · rw [h3]
        · rw [h4]; decide
      · rw [if_neg hw] at hf
        by_cases hh : cropOverflowHeight c = true
        · rw [if_pos hh] at hf
          cases hf
          refine ⟨by simp [cropFieldOverflows, hh], ?_⟩
          intro g hg
          unfold cropFieldOverflows at hg
          split_ifs at hg with h1 h2 h3 h4
          · simp at hg; exact absurd hg hx
          · simp at hg; exact absurd hg hy
          · exact absurd hg hw
          · rw [h4]
        · rw [if_neg hh] at hf
          cases hf

theorem transform_ok_unfold (env : NativeEnv) (t : Transform) (jpegData : List Nat)
    (output : OutputBuf) (region : Region) (ce : Bool)
    (hcrop : cropRegion t.crop = .ok (region, ce)) :
    Transformer.transform env t jpegData output =
      if env.setStatus ≠ 0 then
        (.error (.turboJpegError env.errAfterSet), output,
          [.setParam TJPARAM_NOREALLOC (if output.is_owned then 0 else 1)])
      else
        let evs : List Event :=
          [.setParam TJPARAM_NOREALLOC (if output.is_owned then 0 else 1),
           .nativeTransform jpegData.length
             { r := region, op := t.op.code, options := t.optionsMask ce }]
        let out1 : OutputBuf :=
          { output with ptr := env.transformOutPtr, len := env.transformOutLen }
        if env.transformStatus ≠ 0 then
          (.error (.turboJpegError env.errAfterTransform), out1, evs)
        else if env.transformOutPtr = 0 then
          (.error .null, { out1 with len := 0 }, evs)
        else
          (.ok (), out1, evs) := by
  unfold Transformer.transform
  rw [hcrop]
  rfl

/-- C1: once the native transform entry point has been invoked (the
crop fields converted and the no-realloc set succeeded), the call's
outcome is exactly one of: nonzero native status → `CodecError` with
the handle's current error string; zero status but null output address
→ `Null` with the output length forced to zero; otherwise success.
No other recoverable outcome exists for the native invocation step. -/
theorem transform_native_outcomes (env : NativeEnv) (t : Transform)
    (jpegData : List Nat) (output : OutputBuf) (region : Region) (ce : Bool)
    (hcrop : cropRegion t.crop = .ok (region, ce)) (hset : env.setStatus = 0) :
    (env.transformStatus ≠ 0 →
      (Transformer.transform env t jpegData output).1 =
        .error (.turboJpegError env.errAfterTransform)) ∧
    (env.transformStatus = 0 → env.transformOutPtr = 0 →
      (Transformer.transform env t jpegData output).1 = .error .null ∧
      (Transformer.transform env t jpegData output).2.1.len = 0) ∧
    (env.transformStatus = 0 → env.transformOutPtr ≠ 0 →
      (Transformer.transform env t jpegData output).1 = .ok ()) := by
  rw [transform_ok_unfold env t jpegData output region ce hcrop]
  refine ⟨?_, ?_, ?_⟩
  · intro ht
    simp [hset, ht]
  · intro ht hp
    simp [hset, ht, hp]
  · intro ht hp
    simp [hset, ht, hp]

/-- Witness for C1 at a concrete environment: the native call reports
status 1, and the call surfaces the handle's error string. -/
theorem transform_native_outcomes_witness :
    (Transformer.transform
      { setStatus := 0, errAfterSet := "", transformStatus := 1,
        transformOutPtr := 3, transformOutLen := 5, errAfterTransform := "bad jpeg" }
      Transform.default [255, 216] (OutputBuf.borrowed 10 4)).1 =
      .error (.turboJpegError "bad jpeg") :=
  (transform_native_outcomes
    { setStatus := 0, errAfterSet := "", transformStatus := 1,
      transformOutPtr := 3, transformOutLen := 5, errAfterTransform := "bad jpeg" }
    Transform.default [255, 216] (OutputBuf.borrowed 10 4)
    { x := 0, y := 0, w := 0, h := 0 } false rfl rfl).1 (by decide)

/-- C2: when the configured crop contains a field that does not fit the
native integer width, `Transformer::transform` returns
`IntegerOverflow` naming the offending field (the earliest in the
source's order), performs no native interaction at all, and leaves the
output buffer untouched. -/
theorem transform_crop_overflow_first (env : NativeEnv) (t : Transform)
    (jpegData : List Nat) (output : OutputBuf) (c : TransformCrop) (f : String)
    (hc : t.crop = Option.some c) (hf : firstOverflowField c = Option.some f) :
    (Transformer.transform env t jpegData output).1 = .error (.integerOverflow f) ∧
    (Transformer.transform env t jpegData output).2.2 = [] ∧
    (Transformer.transform env t jpegData output).2.1 = output := by
  unfold Transformer.transform
  rw [hc, cropRegion_some_char, hf]
  exact ⟨rfl, rfl, rfl⟩

/-- Witness for C2: a crop whose `x` exceeds the native integer maximum
yields `IntegerOverflow("crop.x")` with no native interaction. -/
theorem transform_crop_overflow_first_witness :
    (Transformer.transform
      { setStatus := 0, errAfterSet := "", transformStatus := 0,
        transformOutPtr := 3, transformOutLen := 5, errAfterTransform := "" }
      { Transform.default with
          crop := Option.some { x := 2147483648, y := 0,
                                width := Option.none, height := Option.none } }
      [] (OutputBuf.borrowed 10 4)).1 = .error (.integerOverflow "crop.x") ∧
    (Transformer.transform
      { setStatus := 0, errAfterSet := "", transformStatus := 0,
        transformOutPtr := 3, transformOutLen := 5, errAfterTransform := "" }
      { Transform.default with
          crop := Option.some { x := 2147483648, y := 0,
                                width := Option.none, height := Option.none } }
      [] (OutputBuf.borrowed 10 4)).2.2 = [] ∧
    (Transformer.transform
      { setStatus := 0, errAfterSet := "", transformStatus := 0,
        transformOutPtr := 3, transformOutLen := 5, errAfterTransform := "" }
      { Transform.default with
          crop := Option.some { x := 2147483648, y := 0,
                                width := Option.none, height := Option.none } }
      [] (OutputBuf.borrowed 10 4)).2.1 = OutputBuf.borrowed 10 4 :=
  transform_crop_overflow_first
    { setStatus := 0, errAfterSet := "", transformStatus := 0,
      transformOutPtr := 3, transformOutLen := 5, errAfterTransform := "" }
    { Transform.default with
        crop := Option.some { x := 2147483648, y := 0,
                              width := Option.none, height := Option.none } }
    [] (OutputBuf.borrowed 10 4)
    { x := 2147483648, y := 0, width := Option.none, height := Option.none }
    "crop.x" rfl (by decide)

/-- C3: whenever the native transform entry point was actually invoked,
the wrapper writes the native-reported address and length back into the
output buffer — on success and on native failure alike — the only
exception being the length forced to zero when the reported address is
null on nominal success; the ownership tag is untouched. -/
theorem transform_copies_back (env : NativeEnv) (t : Transform)
    (jpegData : List Nat) (output : OutputBuf) (region : Region) (ce : Bool)
    (hcrop : cropRegion t.crop = .ok (region, ce)) (hset : env.setStatus = 0) :
    (Transformer.transform env t jpegData output).2.1.ptr = env.transformOutPtr ∧
    (Transformer.transform env t jpegData output).2.1.len =
      (if env.transformStatus = 0 ∧ env.transformOutPtr = 0 then 0
       else env.transformOutLen) ∧
    (Transformer.transform env t jpegData output).2.1.is_owned = output.is_owned := by
  rw [transform_ok_unfold env t jpegData output region ce hcrop]
  by_cases ht : env.transformStatus = 0
  · by_cases hp : env.transformOutPtr = 0
    · simp [hset, ht, hp]
    · simp [hset, ht, hp]
  · simp [hset, ht]

/-- Witness for C3 at a concrete environment: on a failed native call
the reported address and length are still copied back. -/
theorem transform_copies_back_witness :
    (Transformer.transform
      { setStatus := 0, errAfterSet := "", transformStatus := 1,
        transformOutPtr := 77, transformOutLen := 9, errAfterTransform := "oops" }
      Transform.default [] (OutputBuf.borrowed 10 4)).2.1.ptr = 77 ∧
    (Transformer.transform
      { setStatus := 0, errAfterSet := "", transformStatus := 1,
        transformOutPtr := 77, transformOutLen := 9, errAfterTransform := "oops" }
      Transform.default [] (OutputBuf.borrowed 10 4)).2.1.len =
      (if (1 : Int) = 0 ∧ (77 : Nat) = 0 then 0 else 9) ∧
    (Transformer.transform
      { setStatus := 0, errAfterSet := "", transformStatus := 1,
        transformOutPtr := 77, transformOutLen := 9, errAfterTransform := "oops" }
      Transform.default [] (OutputBuf.borrowed 10 4)).2.1.is_owned =
      (OutputBuf.borrowed 10 4).is_owned :=
  transform_copies_back
    { setStatus := 0, errAfterSet := "", transformStatus := 1,
      transformOutPtr := 77, transformOutLen := 9, errAfterTransform := "oops" }
    Transform.default [] (OutputBuf.borrowed 10 4)
    { x := 0, y := 0, w := 0, h := 0 } false rfl rfl

/-- C4: once the crop fields have converted, the very first native
interaction of the call sets the handle's no-reallocation parameter to
0 when the output buffer is owned and to 1 when it is borrowed, and the
native transform entry point is invoked after it (exactly when the set
succeeded). -/
theorem transform_norealloc_first (env : NativeEnv) (t : Transform)
    (jpegData : List Nat) (output : OutputBuf) (region : Region) (ce : Bool)
    (hcrop : cropRegion t.crop = .ok (region, ce)) :
    (Transformer.transform env t jpegData output).2.2 =
      Event.setParam TJPARAM_NOREALLOC (if output.is_owned then 0 else 1) ::
        (if env.setStatus = 0
         then [Event.nativeTransform jpegData.length
                { r := region, op := t.op.code, options := t.optionsMask ce }]
         else []) := by
  rw [transform_ok_unfold env t jpegData output region ce hcrop]
  by_cases hs : env.setStatus = 0
  · by_cases ht : env.transformStatus = 0
    · by_cases hp : env.transformOutPtr = 0
      · simp [hs, ht, hp]
      · simp [hs, ht, hp]
    · simp [hs, ht]
  · simp [hs]

/-- Witness for C4 at a concrete call: for a borrowed output the
no-realloc parameter is set to 1 before the native transform runs. -/
theorem transform_norealloc_first_witness :
    (Transformer.transform
      { setStatus := 0, errAfterSet := "", transformStatus := 0,
        transformOutPtr := 3, transformOutLen := 5, errAfterTransform := "" }
      Transform.default [255] (OutputBuf.borrowed 10 4)).2.2 =
      Event.setParam TJPARAM_NOREALLOC
          (if (OutputBuf.borrowed 10 4).is_owned then 0 else 1) ::
        (if (0 : Int) = 0
         then [Event.nativeTransform ([255] : List Nat).length
                { r := { x := 0, y := 0, w := 0, h := 0 },
                  op := Transform.default.op.code,
                  options := Transform.default.optionsMask false }]
         else []) :=
  transform_norealloc_first
    { setStatus := 0, errAfterSet := "", transformStatus := 0,
      transformOutPtr := 3, transformOutLen := 5, errAfterTransform := "" }
    Transform.default [255] (OutputBuf.borrowed 10 4)
    { x := 0, y := 0, w := 0, h := 0 } false rfl

/-- C10: whenever `Transformer::transform` reports `IntegerOverflow f`,
the field `f` is a genuinely overflowing crop field and no crop field
earlier in the fixed order `x`, `y`, `width`, `height` overflows: the
first offending field in that order is the one reported. -/
theorem transform_overflow_earliest (env : NativeEnv) (t : Transform)
    (jpegData : List Nat) (output : OutputBuf) (c : TransformCrop) (f : String)
    (hc : t.crop = Option.some c)
    (herr : (Transformer.transform env t jpegData output).1 =
      .error (.integerOverflow f)) :
    cropFieldOverflows c f = true ∧
    ∀ g, cropFieldOverflows c g = true → fieldIdx f ≤ fieldIdx g := by
  have hfirst : firstOverflowField c = Option.some f := by
    unfold Transformer.transform at herr
    rw [hc, cropRegion_some_char] at herr
    cases hf : firstOverflowField c with
    | none =>
      rw [hf] at herr
      by_cases hs : env.setStatus = 0
      · by_cases ht : env.transformStatus = 0
        · by_cases hp : env.transformOutPtr = 0
          · simp [hs, ht, hp] at herr
          · simp [hs, ht, hp] at herr
        · simp [hs, ht] at herr
      · simp [hs] at herr
    | some g =>
      rw [hf] at herr
      simp only [Except.error.injEq, Error.integerOverflow.injEq] at herr
      rw [herr]
  exact firstOverflowField_earliest c f hfirst

/-- Witness for C10: with both `crop.y` and `crop.height` overflowing,
the reported field is `crop.y`, the earlier of the two in the fixed
order. -/
theorem transform_overflow_earliest_witness :
    cropFieldOverflows
      { x := 1, y := 2147483648, width := Option.none,
        height := Option.some 5000000000 } "crop.y" = true ∧
    ∀ g, cropFieldOverflows
      { x := 1, y := 2147483648, width := Option.none,
        height := Option.some 5000000000 : TransformCrop } g = true →
      fieldIdx "crop.y" ≤ fieldIdx g :=
  transform_overflow_earliest
    { setStatus := 0, errAfterSet := "", transformStatus := 0,
      transformOutPtr := 3, transformOutLen := 5, errAfterTransform := "" }
    { Transform.default with
        crop := Option.some { x := 1, y := 2147483648, width := Option.none,
                              height := Option.some 5000000000 } }
    [] (OutputBuf.borrowed 10 4)
    { x := 1, y := 2147483648, width := Option.none, height := Option.some 5000000000 }
    "crop.y" rfl (by rfl)

/-- C5: ownership transfer never leaves two owners.  Converting an
`OwnedBuf` into an `OutputBuf` leaves the source with a null pointer,
so its destructor releases nothing; and after `into_owned()` the
consumed `OutputBuf`'s residual state has a null pointer, so its
destructor releases nothing either — each native allocation is released
by at most one owner. -/
theorem ownership_release_once (buf : OwnedBuf) (alloc : Nat → Nat) (mem : Mem)
    (b : OutputBuf) (out : OwnedBuf × OutputBuf × Mem)
    (h : OutputBuf.into_owned alloc mem b = Option.some out) :
    (OutputBuf.owned buf).2.ptr = 0 ∧
    OwnedBuf.dropReleases (OutputBuf.owned buf).2 = [] ∧
    out.2.1.ptr = 0 ∧
    OutputBuf.dropReleases out.2.1 = [] := by
  have hptr : out.2.1.ptr = 0 := by
    unfold OutputBuf.into_owned at h
    split at h
    · cases h
      rfl
    · split at h
      · cases h
      · split at h
        · cases h
        · cases h
          rfl
  refine ⟨rfl, rfl, hptr, ?_⟩
  unfold OutputBuf.dropReleases freedBy
  rw [hptr]
  simp

/-- Witness for C5: a concrete owned buffer moved through `into_owned`;
neither the consumed `OutputBuf` nor the `OwnedBuf` consumed by
`OutputBuf.owned` releases anything in its destructor. -/
theorem ownership_release_once_witness :
    (OutputBuf.owned { ptr := 42, len := 8 }).2.ptr = 0 ∧
    OwnedBuf.dropReleases (OutputBuf.owned { ptr := 42, len := 8 }).2 = [] ∧
    ({ ptr := 42, len := 8 : OwnedBuf },
      { ptr := 0, len := 8, is_owned := true : OutputBuf },
      (fun _ => Option.none : Mem)).2.1.ptr = 0 ∧
    OutputBuf.dropReleases
      ({ ptr := 42, len := 8 : OwnedBuf },
        { ptr := 0, len := 8, is_owned := true : OutputBuf },
        (fun _ => Option.none : Mem)).2.1 = [] :=
  ownership_release_once { ptr := 42, len := 8 } (fun _ => 0) (fun _ => Option.none)
    { ptr := 42, len := 8, is_owned := true }
    ({ ptr := 42, len := 8 }, { ptr := 0, len := 8, is_owned := true },
      (fun _ => Option.none : Mem)) rfl

/-- C6: `into_owned()` on an owned buffer moves the very same address
and length out, touching no memory and allocating nothing; on a
borrowed buffer it allocates a fresh native region and copies the
current bytes, so in that case too the produced `OwnedBuf` has the
buffer's length and holds exactly the buffer's bytes. -/
theorem into_owned_contents (alloc : Nat → Nat) (mem : Mem) (b : OutputBuf) :
    (b.is_owned = true →
      OutputBuf.into_owned alloc mem b =
        Option.some ({ ptr := b.ptr, len := b.len }, { b with ptr := 0 }, mem)) ∧
    (b.is_owned = false → ∀ data, readBytes mem b.ptr b.len = Option.some data →
      alloc data.length ≠ 0 →
      data.length = b.len ∧
      OutputBuf.into_owned alloc mem b =
        Option.some ({ ptr := alloc data.length, len := data.length },
          { b with ptr := 0 }, writeBytes mem (alloc data.length) data) ∧
      readBytes (writeBytes mem (alloc data.length) data) (alloc data.length)
        data.length = Option.some data) := by
  constructor
  · intro hb
    unfold OutputBuf.into_owned
    simp [hb]
  · intro hb data hr halloc
    refine ⟨readBytes_length mem b.len b.ptr data hr, ?_,
      readBytes_writeBytes data mem (alloc data.length)⟩
    unfold OutputBuf.into_owned OwnedBuf.copy_from_slice OwnedBuf.allocate
    simp [hb, hr, halloc]

/-- Witness for C6: an owned buffer moves out unchanged; a borrowed
two-byte buffer is copied into a fresh allocation at address 50 whose
bytes read back equal the original contents. -/
theorem into_owned_contents_witness :
    (OutputBuf.into_owned (fun _ => 50) (fun a => Option.some a)
        { ptr := 7, len := 3, is_owned := true } =
      Option.some ({ ptr := 7, len := 3 },
        { ptr := 0, len := 3, is_owned := true }, fun a => Option.some a)) ∧
    (([5, 6] : List Nat).length = 2 ∧
      OutputBuf.into_owned (fun _ => 50) (fun a => Option.some a)
          { ptr := 5, len := 2, is_owned := false } =
        Option.some ({ ptr := 50, len := 2 }, { ptr := 0, len := 2, is_owned := false },
          writeBytes (fun a => Option.some a) 50 [5, 6]) ∧
      readBytes (writeBytes (fun a => Option.some a) 50 [5, 6]) 50 2 =
        Option.some [5, 6]) :=
  ⟨(into_owned_contents (fun _ => 50) (fun a => Option.some a)
      { ptr := 7, len := 3, is_owned := true }).1 rfl,
   (into_owned_contents (fun _ => 50) (fun a => Option.some a)
      { ptr := 5, len := 2, is_owned := false }).2 rfl [5, 6] rfl (by decide)⟩

/-- C7: requesting a byte view — shared or mutable — of a zero-length
`OwnedBuf` or `OutputBuf` yields the empty slice without dereferencing
the stored address: the result is `some []` for every memory, even the
memory in which no address at all is mapped and even when the stored
address is null. -/
theorem zero_len_view_safe (mem : Mem) (b : OwnedBuf) (ob : OutputBuf)
    (hb : b.len = 0) (hob : ob.len = 0) :
    b.view mem = Option.some [] ∧ b.viewMut mem = Option.some [] ∧
    ob.view mem = Option.some [] ∧ ob.viewMut mem = Option.some [] := by
  unfold OwnedBuf.view OwnedBuf.viewMut OutputBuf.view OutputBuf.viewMut
    derefBytes derefMutBytes
  simp [hb, hob]

/-- Witness for C7: the zero-length null-address buffers viewed through
the fully unmapped memory still give the empty view. -/
theorem zero_len_view_safe_witness :
    OwnedBuf.view (fun _ => Option.none) { ptr := 0, len := 0 } = Option.some [] ∧
    OwnedBuf.viewMut (fun _ => Option.none) { ptr := 0, len := 0 } = Option.some [] ∧
    OutputBuf.view (fun _ => Option.none) { ptr := 0, len := 0, is_owned := true } =
      Option.some [] ∧
    OutputBuf.viewMut (fun _ => Option.none) { ptr := 0, len := 0, is_owned := true } =
      Option.some [] :=
  zero_len_view_safe (fun _ => Option.none) { ptr := 0, len := 0 }
    { ptr := 0, len := 0, is_owned := true } rfl rfl

/-- C8 counterexample: the claim says the allocation assertion fires
exactly when the native allocator returns null *for nonzero* `len`, but
the source asserts `!ptr.is_null()` unconditionally: with an allocator
returning null on a zero-length request, `allocate(0)` still fails
fatally, refuting the stated biconditional at `len = 0`. -/
theorem allocate_nonzero_claim_counterexample :
    OwnedBuf.allocate (fun _ => 0) 0 = Option.none ∧
    ¬ (OwnedBuf.allocate (fun _ => 0) 0 = Option.none ↔
        ((fun _ => 0) 0 = 0 ∧ (0 : Nat) ≠ 0)) := by
  constructor
  · rfl
  · intro hiff
    exact (hiff.mp rfl).2 rfl

/-- C8 amended: `OwnedBuf::allocate(len)` fails fatally via the
process-level assertion exactly when the native allocator returns a
null result — for any requested `len`, zero included — and when the
allocator returns a non-null address the produced buffer records that
address and the requested length. -/
theorem allocate_fatal_iff_null (alloc : Nat → Nat) (len : Nat) :
    (OwnedBuf.allocate alloc len = Option.none ↔ alloc len = 0) ∧
    (∀ b, OwnedBuf.allocate alloc len = Option.some b →
      b.ptr = alloc len ∧ b.len = len) := by
  unfold OwnedBuf.allocate
  by_cases h : alloc len = 0
  · simp [h]
  · simp only [h, if_false]
    refine ⟨by simp [h], ?_⟩
    intro b hb
    cases hb
    exact ⟨rfl, rfl⟩

/-- Witness for C8 (amended): a non-null-returning allocator produces a
buffer recording the allocator's address and the requested length. -/
theorem allocate_fatal_iff_null_witness :
    (OwnedBuf.allocate (fun _ => 7) 3 = Option.none ↔ (fun _ => 7) 3 = 0) ∧
    (({ ptr := 7, len := 3 } : OwnedBuf).ptr = (fun _ => 7) 3 ∧
      ({ ptr := 7, len := 3 } : OwnedBuf).len = 3) :=
  ⟨(allocate_fatal_iff_null (fun _ => 7) 3).1,
   (allocate_fatal_iff_null (fun _ => 7) 3).2 { ptr := 7, len := 3 } rfl⟩

/-- C9: when the native initializer returns a null context,
`Handle::new` returns a `CodecError` carrying the native error string —
fetched through the partially constructed wrapper, i.e. from the null
context itself — and when it returns a non-null context, `Handle::new`
returns that handle successfully. -/
theorem handle_new_null_error (tj3Init : Nat → Nat) (errStr : Nat → String)
    (mode : Nat) :
    (tj3Init mode = 0 →
      Handle.new tj3Init errStr mode = .error (.turboJpegError (errStr 0))) ∧
    (tj3Init mode ≠ 0 →
      Handle.new tj3Init errStr mode = .ok { ptr := tj3Init mode }) := by
  unfold Handle.new Handle.get_error
  constructor
  · intro h
    simp [h]
  · intro h
    simp [h]

/-- Witness for C9: a failing initializer surfaces the native error
string; a succeeding one returns the handle. -/
theorem handle_new_null_error_witness :
    Handle.new (fun _ => 0) (fun _ => "init failed") 3 =
      .error (.turboJpegError "init failed") ∧
    Handle.new (fun _ => 9) (fun _ => "") 3 = .ok { ptr := 9 } :=
  ⟨(handle_new_null_error (fun _ => 0) (fun _ => "init failed") 3).1 rfl,
   (handle_new_null_error (fun _ => 9) (fun _ => "") 3).2 (by decide)⟩

end Turbojpeg
